import Mathlib

/-!
Shallow embedding of the pseudo-SSL socket decorator from
`src/socket/pseudossl.c` (libnice). The decorator wraps a base socket,
emulates a fixed SSLv2-style handshake, queues outbound messages while the
handshake is pending, and flushes them once the fixed server pattern is
received. State is `PseudoSSLPriv`; the interactions with the wrapped
socket (record received, result of a delegated call, result of each queued
send) are explicit parameters, and each operation additionally reports the
list of send calls it issued to the wrapped socket.
-/

namespace PseudoSSL

/-- A peer address (`NiceAddress`); value `0` stands for the zero-initialized
address of a `g_slice_new0` allocation. -/
abbrev NiceAddress := Nat

/-- One buffer of an output message (`GOutputVector`): its byte contents.
The byte count of the vector is the length of the list. -/
abbrev GOutputVector := List Nat

/-- A `NiceOutputMessage`: an ordered set of byte ranges, a declared total
length, and an optional destination address. -/
structure NiceOutputMessage where
  buffers : List GOutputVector
  length : Nat
  dest : Option NiceAddress
deriving DecidableEq

/-- A queued pending send (`struct to_be_sent`): the compacted buffer, the
declared length, and the captured destination (zero when the original
message had none, matching the zeroed allocation). -/
structure ToBeSent where
  buf : List Nat
  length : Nat
  dest : NiceAddress
deriving DecidableEq

/-- The decorator state (`PseudoSSLPriv`): the handshake flag, whether the
wrapped `base_socket` is still present (non-NULL), and the send queue. -/
structure PseudoSSLPriv where
  handshaken : Bool
  base_socket : Bool
  send_queue : List ToBeSent
deriving DecidableEq

/-- A send call issued to the wrapped socket: optional destination (NULL in
the C code becomes `none`) and the bytes handed over. -/
structure InnerSendCall where
  dest : Option NiceAddress
  data : List Nat
deriving DecidableEq

/-- The fixed server-handshake pattern (`SSL_SERVER_HANDSHAKE`, 71 bytes). -/
def SSL_SERVER_HANDSHAKE : List Nat :=
  [0x16, 0x03, 0x01, 0x00, 0x4a, 0x02, 0x00, 0x00,
   0x46, 0x03, 0x01, 0x42, 0x85, 0x45, 0xa7, 0x27,
   0xa9, 0x5d, 0xa0, 0xb3, 0xc5, 0xe7, 0x53, 0xda,
   0x48, 0x2b, 0x3f, 0xc6, 0x5a, 0xca, 0x89, 0xc1,
   0x58, 0x52, 0xa1, 0x78, 0x3c, 0x5b, 0x17, 0x46,
   0x00, 0x85, 0x3f, 0x20, 0x0e, 0xd3, 0x06, 0x72,
   0x5b, 0x5b, 0x1b, 0x5f, 0x15, 0xac, 0x13, 0xf9,
   0x88, 0x53, 0x9d, 0x9b, 0xe8, 0x3d, 0x7b, 0x0c,
   0x30, 0x32, 0x6e, 0x38, 0x4d, 0xa2, 0x75, 0x57,
   0x41, 0x6c, 0x34, 0x5c, 0x00, 0x04, 0x00]

/-- The fixed client-handshake pattern (`SSL_CLIENT_HANDSHAKE`, 72 bytes). -/
def SSL_CLIENT_HANDSHAKE : List Nat :=
  [0x80, 0x46, 0x01, 0x03, 0x01, 0x00, 0x2d, 0x00,
   0x00, 0x00, 0x10, 0x01, 0x00, 0x80, 0x03, 0x00,
   0x80, 0x07, 0x00, 0xc0, 0x06, 0x00, 0x40, 0x02,
   0x00, 0x80, 0x04, 0x00, 0x80, 0x00, 0x00, 0x04,
   0x00, 0xfe, 0xff, 0x00, 0x00, 0x0a, 0x00, 0xfe,
   0xfe, 0x00, 0x00, 0x09, 0x00, 0x00, 0x64, 0x00,
   0x00, 0x62, 0x00, 0x00, 0x03, 0x00, 0x00, 0x06,
   0x1f, 0x17, 0x0c, 0xa6, 0x2f, 0x00, 0x78, 0xfc,
   0x46, 0x55, 0x2e, 0xb1, 0x83, 0x39, 0xf1, 0xea]

/-- The inner copy loop of `add_to_be_sent` (lines 241-251): walk the buffers
in order, copying `MIN (length - offset, buffer.size)` bytes of each and
advancing `offset`. Returns the bytes written and the final `offset`. -/
def compactLoop (length : Nat) : List GOutputVector → Nat → List Nat × Nat
  | [], offset => ([], offset)
  | b :: bs, offset =>
      let len := min (length - offset) b.length
      let rest := compactLoop length bs (offset + len)
      (b.take len ++ rest.1, rest.2)

/-- Compact one message: the copy loop started at offset 0. -/
def compact (message : NiceOutputMessage) : List Nat × Nat :=
  compactLoop message.length message.buffers 0

/-- Build the queued entry for one message (`add_to_be_sent`, lines 226-239):
the compacted buffer, the declared length, and the destination captured by
value (zero when the message carries none). -/
def mkToBeSent (message : NiceOutputMessage) : ToBeSent :=
  { buf := (compact message).1
    length := message.length
    dest := message.dest.getD 0 }

/-- `add_to_be_sent`: append one compacted entry per message, in order, to
the tail of the send queue. -/
def add_to_be_sent (queue : List ToBeSent) (messages : List NiceOutputMessage) :
    List ToBeSent :=
  queue ++ messages.map mkToBeSent

/-- The `g_assert_cmpuint (offset, ==, message->length)` check at line 253:
the final copy offset equals the declared message length. -/
def addAssertHolds (message : NiceOutputMessage) : Prop :=
  (compact message).2 = message.length

instance (message : NiceOutputMessage) : Decidable (addAssertHolds message) :=
  inferInstanceAs (Decidable ((compact message).2 = message.length))

/-- Result of constructing the decorator: its state and the send calls
issued to the wrapped socket during construction. -/
structure NewResult where
  priv : PseudoSSLPriv
  innerSends : List InnerSendCall
deriving DecidableEq

/-- `nice_pseudossl_socket_new` (lines 103-126): zero-initialized state
(`handshaken = FALSE`, empty queue), wrapped socket kept, and one send of
`SSL_CLIENT_HANDSHAKE` to the wrapped socket with a NULL destination. -/
def nice_pseudossl_socket_new : NewResult :=
  { priv := { handshaken := false, base_socket := true, send_queue := [] }
    innerSends := [{ dest := none, data := SSL_CLIENT_HANDSHAKE }] }

/-- The outcome the wrapped socket produces for the single-record receive
into the 71-byte local buffer: the return count `ret`, and the delivered
bytes (meaningful when `ret = 1`; the size written back into
`local_recv_buf.size` is the length of `record`). -/
structure InnerRecvOutcome where
  ret : Int
  record : List Nat

/-- Result of a receive call on the decorator: the new state, the send
calls issued to the wrapped socket (queue flush), and the returned count. -/
structure RecvResult where
  priv : PseudoSSLPriv
  innerSends : List InnerSendCall
  ret : Int
deriving DecidableEq

/-- The flush loop at lines 175-180: pop each queued entry in FIFO order and
send it to the wrapped socket, destination taken from the entry. The result
of each `nice_socket_send` is computed by `sendRet` and discarded, exactly
as the C code discards it. -/
def drainQueue (sendRet : ToBeSent → Int) : List ToBeSent → List InnerSendCall
  | [] => []
  | tbs :: rest =>
      let _ret := sendRet tbs
      { dest := some tbs.dest, data := tbs.buf } :: drainQueue sendRet rest

/-- `socket_recv_messages` (lines 144-190). `inner` is the outcome the
wrapped socket would produce for the local single-record receive (consulted
only when that receive is actually issued); `delegRet` is the result the
wrapped socket would return for the delegated pass-through receive;
`sendRet` gives the (discarded) result of each flush send. -/
def socket_recv_messages (priv : PseudoSSLPriv) (inner : InnerRecvOutcome)
    (delegRet : Int) (sendRet : ToBeSent → Int) : RecvResult :=
  if priv.handshaken then
    if priv.base_socket then
      { priv := priv, innerSends := [], ret := delegRet }
    else
      { priv := priv, innerSends := [], ret := 0 }
  else
    if priv.base_socket then
      let ret := inner.ret
      if ret ≤ 0 then
        { priv := priv, innerSends := [], ret := ret }
      else if ret = 1 ∧ inner.record.length = SSL_SERVER_HANDSHAKE.length ∧
          inner.record = SSL_SERVER_HANDSHAKE then
        { priv := { handshaken := true, base_socket := priv.base_socket
                    send_queue := [] }
          innerSends := drainQueue sendRet priv.send_queue
          ret := 0 }
      else
        { priv := { handshaken := false, base_socket := false
                    send_queue := priv.send_queue }
          innerSends := []
          ret := -1 }
    else
      { priv := priv, innerSends := [], ret := -1 }

/-- Result of a send call on the decorator: the new state, the messages
forwarded unchanged to the wrapped socket, and the returned value
(gboolean `TRUE = 1` / `FALSE = 0`, or the delegated gint). -/
structure SendResult where
  priv : PseudoSSLPriv
  forwarded : List NiceOutputMessage
  ret : Int
deriving DecidableEq

/-- `socket_send_messages` (lines 192-209): once handshaken, pass through to
the wrapped socket (`FALSE` when it is absent); otherwise queue every
message via `add_to_be_sent` and return `TRUE`. -/
def socket_send_messages (priv : PseudoSSLPriv)
    (messages : List NiceOutputMessage) (delegRet : Int) : SendResult :=
  if priv.handshaken then
    if priv.base_socket then
      { priv := priv, forwarded := messages, ret := delegRet }
    else
      { priv := priv, forwarded := [], ret := 0 }
  else
    { priv := { handshaken := false, base_socket := priv.base_socket
                send_queue := add_to_be_sent priv.send_queue messages }
      forwarded := []
      ret := 1 }

/-- One external operation on the decorator, with the wrapped-socket
behaviour it would observe. -/
inductive Op where
  | recvOp (inner : InnerRecvOutcome) (delegRet : Int) (sendRet : ToBeSent → Int)
  | sendOp (messages : List NiceOutputMessage) (delegRet : Int)

/-- State reached after one operation. -/
def applyOp (priv : PseudoSSLPriv) : Op → PseudoSSLPriv
  | Op.recvOp inner delegRet sendRet =>
      (socket_recv_messages priv inner delegRet sendRet).priv
  | Op.sendOp messages delegRet =>
      (socket_send_messages priv messages delegRet).priv

/-- State reached after a sequence of operations. -/
def runOps (priv : PseudoSSLPriv) (ops : List Op) : PseudoSSLPriv :=
  ops.foldl applyOp priv

/-- A poisoned decorator: not handshaken and the wrapped socket released. -/
def poisoned (priv : PseudoSSLPriv) : Prop :=
  priv.handshaken = false ∧ priv.base_socket = false


/-! ### Helper lemmas -/

/-- The flush loop issues exactly one send per queued entry, in FIFO order,
each carrying the stored destination and buffer, whatever the send results
are. -/
theorem drainQueue_eq_map (sendRet : ToBeSent → Int) (queue : List ToBeSent) :
    drainQueue sendRet queue =
      queue.map (fun tbs => { dest := some tbs.dest, data := tbs.buf }) := by
  induction queue with
  | nil => rfl
  | cons tbs rest ih => simp [drainQueue, ih]

/-- Reduction of a receive in the NOT_HANDSHAKEN, inner-present case when the
underlying receive delivers exactly the server-handshake pattern. -/
theorem recv_match_eq (priv : PseudoSSLPriv) (inner : InnerRecvOutcome)
    (delegRet : Int) (sendRet : ToBeSent → Int)
    (hh : priv.handshaken = false) (hb : priv.base_socket = true)
    (hr : inner.ret = 1) (hrec : inner.record = SSL_SERVER_HANDSHAKE) :
    socket_recv_messages priv inner delegRet sendRet =
      { priv := { handshaken := true, base_socket := true, send_queue := [] }
        innerSends := priv.send_queue.map
          (fun tbs => { dest := some tbs.dest, data := tbs.buf })
        ret := 0 } := by
  simp [socket_recv_messages, hh, hb, hr, hrec, drainQueue_eq_map]

/-! ### Claim C1 -/

/-- Claim C1: while NOT_HANDSHAKEN with the wrapped socket present, a receive
whose underlying outcome is exactly one record equal to the fixed
server-handshake pattern (same length and bytes) moves the decorator to
HANDSHAKEN, issues one send per queued entry to the wrapped socket in FIFO
submission order with each stored destination, empties the queue, and
returns 0. -/
theorem recv_pattern_match_flushes (priv : PseudoSSLPriv)
    (inner : InnerRecvOutcome) (delegRet : Int) (sendRet : ToBeSent → Int)
    (hh : priv.handshaken = false) (hb : priv.base_socket = true)
    (hr : inner.ret = 1) (hrec : inner.record = SSL_SERVER_HANDSHAKE) :
    (socket_recv_messages priv inner delegRet sendRet).priv.handshaken = true ∧
    (socket_recv_messages priv inner delegRet sendRet).innerSends =
      priv.send_queue.map
        (fun tbs => { dest := some tbs.dest, data := tbs.buf }) ∧
    (socket_recv_messages priv inner delegRet sendRet).priv.send_queue = [] ∧
    (socket_recv_messages priv inner delegRet sendRet).ret = 0 := by
  rw [recv_match_eq priv inner delegRet sendRet hh hb hr hrec]
  exact ⟨rfl, rfl, rfl, rfl⟩

/-- Claim C1 witness: a concrete NOT_HANDSHAKEN state with two queued
entries, fed the exact server pattern. -/
theorem recv_pattern_match_flushes_witness :
    (socket_recv_messages
        { handshaken := false, base_socket := true
          send_queue := [{ buf := [1, 2], length := 2, dest := 5 },
            { buf := [3], length := 1, dest := 0 }] }
        { ret := 1, record := SSL_SERVER_HANDSHAKE } 7
        (fun _ => -1)).priv.handshaken = true ∧
    (socket_recv_messages
        { handshaken := false, base_socket := true
          send_queue := [{ buf := [1, 2], length := 2, dest := 5 },
            { buf := [3], length := 1, dest := 0 }] }
        { ret := 1, record := SSL_SERVER_HANDSHAKE } 7
        (fun _ => -1)).innerSends =
      [{ dest := some 5, data := [1, 2] }, { dest := some 0, data := [3] }] ∧
    (socket_recv_messages
        { handshaken := false, base_socket := true
          send_queue := [{ buf := [1, 2], length := 2, dest := 5 },
            { buf := [3], length := 1, dest := 0 }] }
        { ret := 1, record := SSL_SERVER_HANDSHAKE } 7
        (fun _ => -1)).priv.send_queue = [] ∧
    (socket_recv_messages
        { handshaken := false, base_socket := true
          send_queue := [{ buf := [1, 2], length := 2, dest := 5 },
            { buf := [3], length := 1, dest := 0 }] }
        { ret := 1, record := SSL_SERVER_HANDSHAKE } 7
        (fun _ => -1)).ret = 0 := by
  have h := recv_pattern_match_flushes
    { handshaken := false, base_socket := true
      send_queue := [{ buf := [1, 2], length := 2, dest := 5 },
        { buf := [3], length := 1, dest := 0 }] }
    { ret := 1, record := SSL_SERVER_HANDSHAKE } 7 (fun _ => -1)
    rfl rfl rfl rfl
  simpa using h

/-! ### Claim C2 -/

/-- Claim C2: every send while NOT_HANDSHAKEN (with or without the wrapped
socket) forwards nothing to the wrapped socket, appends one compacted entry
per message to the pending queue, leaves the rest of the state unchanged,
and returns TRUE (success). -/
theorem send_not_handshaken_queues (priv : PseudoSSLPriv)
    (messages : List NiceOutputMessage) (delegRet : Int)
    (hh : priv.handshaken = false) :
    (socket_send_messages priv messages delegRet).forwarded = [] ∧
    (socket_send_messages priv messages delegRet).priv.send_queue =
      priv.send_queue ++ messages.map mkToBeSent ∧
    (socket_send_messages priv messages delegRet).priv.handshaken = false ∧
    (socket_send_messages priv messages delegRet).priv.base_socket =
      priv.base_socket ∧
    (socket_send_messages priv messages delegRet).ret = 1 := by
  simp [socket_send_messages, add_to_be_sent, hh]

/-- Claim C2 witness: one scattered message queued while NOT_HANDSHAKEN. -/
theorem send_not_handshaken_queues_witness :
    (socket_send_messages
        { handshaken := false, base_socket := true, send_queue := [] }
      [{ buffers := [[1, 2], [3]], length := 3, dest := some 9 }]
      0).forwarded = [] ∧
    (socket_send_messages
        { handshaken := false, base_socket := true, send_queue := [] }
      [{ buffers := [[1, 2], [3]], length := 3, dest := some 9 }]
      0).priv.send_queue = [{ buf := [1, 2, 3], length := 3, dest := 9 }] ∧
    (socket_send_messages
        { handshaken := false, base_socket := true, send_queue := [] }
      [{ buffers := [[1, 2], [3]], length := 3, dest := some 9 }]
      0).ret = 1 := by
  have h := send_not_handshaken_queues
    { handshaken := false, base_socket := true, send_queue := [] }
    [{ buffers := [[1, 2], [3]], length := 3, dest := some 9 }] 0 rfl
  refine ⟨h.1, ?_, h.2.2.2.2⟩
  rw [h.2.1]
  decide

/-! ### Claim C3 -/

/-- Claim C3 counterexample: construction does issue exactly one send of the
fixed client pattern with no destination, but that pattern is 72 bytes
long, not 71 as the claim states (71 is the length of the server
pattern). -/
theorem new_pattern_length_counterexample :
    nice_pseudossl_socket_new.innerSends =
      [{ dest := none, data := SSL_CLIENT_HANDSHAKE }] ∧
    SSL_CLIENT_HANDSHAKE.length = 72 ∧
    ¬ SSL_CLIENT_HANDSHAKE.length = 71 := by
  refine ⟨rfl, by decide, by decide⟩

/-- Claim C3 amended: construction issues exactly one send to the wrapped
socket, with no destination address, whose payload is the fixed 72-byte
client-handshake pattern, and returns a decorator in state NOT_HANDSHAKEN
with an empty queue and the wrapped socket present. -/
theorem new_sends_client_pattern :
    nice_pseudossl_socket_new.priv.handshaken = false ∧
    nice_pseudossl_socket_new.priv.base_socket = true ∧
    nice_pseudossl_socket_new.priv.send_queue = [] ∧
    nice_pseudossl_socket_new.innerSends =
      [{ dest := none, data := SSL_CLIENT_HANDSHAKE }] ∧
    SSL_CLIENT_HANDSHAKE.length = 72 := by
  refine ⟨rfl, rfl, rfl, rfl, by decide⟩

/-! ### Claim C4 -/

/-- Claim C4 counterexample: while NOT_HANDSHAKEN with the wrapped socket
absent, `ret` keeps its initial value `-1` and `return ret` yields `-1`,
not the claimed `0`. -/
theorem recv_absent_counterexample :
    (socket_recv_messages
        { handshaken := false, base_socket := false, send_queue := [] }
        { ret := 0, record := [] } 0 (fun _ => 0)).ret = -1 ∧
    ¬ (socket_recv_messages
        { handshaken := false, base_socket := false, send_queue := [] }
        { ret := 0, record := [] } 0 (fun _ => 0)).ret = 0 := by
  refine ⟨rfl, by decide⟩

/-- Claim C4 amended: every receive while NOT_HANDSHAKEN with the wrapped
socket absent issues no underlying call, leaves the state unchanged, and
returns `-1` (the initial value of `ret`), a negative failure value rather
than `0`. -/
theorem recv_not_handshaken_absent (priv : PseudoSSLPriv)
    (inner : InnerRecvOutcome) (delegRet : Int) (sendRet : ToBeSent → Int)
    (hh : priv.handshaken = false) (hb : priv.base_socket = false) :
    socket_recv_messages priv inner delegRet sendRet =
      { priv := priv, innerSends := [], ret := -1 } := by
  simp [socket_recv_messages, hh, hb]

/-- Claim C4 witness: the amended behaviour at a concrete poisoned state. -/
theorem recv_not_handshaken_absent_witness :
    socket_recv_messages
        { handshaken := false, base_socket := false
          send_queue := [{ buf := [7], length := 1, dest := 2 }] }
        { ret := 1, record := SSL_SERVER_HANDSHAKE } 3 (fun _ => 0) =
      { priv := { handshaken := false, base_socket := false
                  send_queue := [{ buf := [7], length := 1, dest := 2 }] }
        innerSends := [], ret := -1 } :=
  recv_not_handshaken_absent
    { handshaken := false, base_socket := false
      send_queue := [{ buf := [7], length := 1, dest := 2 }] }
    { ret := 1, record := SSL_SERVER_HANDSHAKE } 3 (fun _ => 0) rfl rfl

/-! ### Claim C5 -/

/-- A poisoned decorator stays poisoned across any single operation. -/
theorem applyOp_poisoned (priv : PseudoSSLPriv) (op : Op)
    (h : poisoned priv) : poisoned (applyOp priv op) := by
  obtain ⟨hh, hb⟩ := h
  cases op with
  | recvOp inner delegRet sendRet =>
      simp [applyOp, socket_recv_messages, poisoned, hh, hb]
  | sendOp messages delegRet =>
      simp [applyOp, socket_send_messages, poisoned, hh, hb]

/-- A poisoned decorator stays poisoned across any operation sequence. -/
theorem runOps_poisoned (priv : PseudoSSLPriv) (ops : List Op)
    (h : poisoned priv) : poisoned (runOps priv ops) := by
  induction ops generalizing priv with
  | nil => exact h
  | cons op rest ih => exact ih (applyOp priv op) (applyOp_poisoned priv op h)

/-- Claim C5: while NOT_HANDSHAKEN with the wrapped socket present, a receive
whose underlying outcome is one record that differs from the fixed server
pattern (in size or in bytes) releases the wrapped socket, returns a
negative value, and the decorator never reaches HANDSHAKEN afterwards,
whatever operations follow. -/
theorem recv_mismatch_poisons (priv : PseudoSSLPriv)
    (inner : InnerRecvOutcome) (delegRet : Int) (sendRet : ToBeSent → Int)
    (hh : priv.handshaken = false) (hb : priv.base_socket = true)
    (hr : inner.ret = 1) (hm : inner.record ≠ SSL_SERVER_HANDSHAKE) :
    (socket_recv_messages priv inner delegRet sendRet).priv.base_socket
      = false ∧
    (socket_recv_messages priv inner delegRet sendRet).priv.handshaken
      = false ∧
    (socket_recv_messages priv inner delegRet sendRet).ret < 0 ∧
    ∀ ops : List Op,
      (runOps (socket_recv_messages priv inner delegRet sendRet).priv
        ops).handshaken = false := by
  have hres : socket_recv_messages priv inner delegRet sendRet =
      { priv := { handshaken := false, base_socket := false
                  send_queue := priv.send_queue }
        innerSends := [], ret := -1 } := by
    have hcond : ¬ (inner.ret = 1 ∧
        inner.record.length = SSL_SERVER_HANDSHAKE.length ∧
        inner.record = SSL_SERVER_HANDSHAKE) := by
      rintro ⟨-, -, h3⟩
      exact hm h3
    simp [socket_recv_messages, hh, hb, hr, hcond]
    exact fun _ => hm
  rw [hres]
  refine ⟨rfl, rfl, by norm_num, fun ops => ?_⟩
  exact (runOps_poisoned _ ops ⟨rfl, rfl⟩).1

/-- Claim C5 witness: a one-byte record poisons a concrete decorator, and a
later receive of the genuine pattern no longer completes the handshake. -/
theorem recv_mismatch_poisons_witness :
    (socket_recv_messages
        { handshaken := false, base_socket := true, send_queue := [] }
        { ret := 1, record := [0x16] } 0 (fun _ => 0)).priv.base_socket
      = false ∧
    (socket_recv_messages
        { handshaken := false, base_socket := true, send_queue := [] }
        { ret := 1, record := [0x16] } 0 (fun _ => 0)).ret < 0 ∧
    (runOps (socket_recv_messages
        { handshaken := false, base_socket := true, send_queue := [] }
        { ret := 1, record := [0x16] } 0 (fun _ => 0)).priv
      [Op.recvOp { ret := 1, record := SSL_SERVER_HANDSHAKE } 0
        (fun _ => 0)]).handshaken = false := by
  have h := recv_mismatch_poisons
    { handshaken := false, base_socket := true, send_queue := [] }
    { ret := 1, record := [0x16] } 0 (fun _ => 0) rfl rfl rfl (by decide)
  exact ⟨h.1, h.2.2.1,
    h.2.2.2 [Op.recvOp { ret := 1, record := SSL_SERVER_HANDSHAKE } 0
      (fun _ => 0)]⟩

/-! ### Claim C6 -/

/-- Claim C6 counterexample: a send on a concrete poisoned (NOT_HANDSHAKEN,
wrapped socket absent) decorator returns TRUE (1), a success, not a
failure. -/
theorem send_poisoned_counterexample :
    (socket_send_messages
        { handshaken := false, base_socket := false, send_queue := [] }
        [{ buffers := [[1]], length := 1, dest := none }] 0).ret = 1 ∧
    ¬ (socket_send_messages
        { handshaken := false, base_socket := false, send_queue := [] }
        [{ buffers := [[1]], length := 1, dest := none }] 0).ret ≤ 0 := by
  refine ⟨rfl, by decide⟩

/-- Claim C6 amended: every send after the connection is poisoned (wrapped
socket released, still NOT_HANDSHAKEN) reports success (TRUE), forwards
nothing, and keeps queueing the messages. -/
theorem send_poisoned_reports_success (priv : PseudoSSLPriv)
    (messages : List NiceOutputMessage) (delegRet : Int)
    (hh : priv.handshaken = false) (hb : priv.base_socket = false) :
    (socket_send_messages priv messages delegRet).ret = 1 ∧
    (socket_send_messages priv messages delegRet).forwarded = [] ∧
    (socket_send_messages priv messages delegRet).priv.send_queue =
      priv.send_queue ++ messages.map mkToBeSent ∧
    (socket_send_messages priv messages delegRet).priv.base_socket = false := by
  simp [socket_send_messages, add_to_be_sent, hh, hb]

/-- Claim C6 witness: the amended behaviour at a concrete poisoned state. -/
theorem send_poisoned_reports_success_witness :
    (socket_send_messages
        { handshaken := false, base_socket := false, send_queue := [] }
        [{ buffers := [[4, 5]], length := 2, dest := none }] 0).ret = 1 ∧
    (socket_send_messages
        { handshaken := false, base_socket := false, send_queue := [] }
        [{ buffers := [[4, 5]], length := 2, dest := none }] 0).forwarded
      = [] ∧
    (socket_send_messages
        { handshaken := false, base_socket := false, send_queue := [] }
        [{ buffers := [[4, 5]], length := 2, dest := none }]
        0).priv.send_queue = [{ buf := [4, 5], length := 2, dest := 0 }] := by
  have h := send_poisoned_reports_success
    { handshaken := false, base_socket := false, send_queue := [] }
    [{ buffers := [[4, 5]], length := 2, dest := none }] 0 rfl rfl
  refine ⟨h.1, h.2.1, ?_⟩
  rw [h.2.2.1]
  decide

/-! ### Claim C7 -/

/-- Claim C7 counterexample: a receive on a concrete decorator that is
HANDSHAKEN with the wrapped socket absent returns `0` (an empty result),
not a negative failure. -/
theorem recv_handshaken_absent_counterexample :
    (socket_recv_messages
        { handshaken := true, base_socket := false, send_queue := [] }
        { ret := 0, record := [] } 5 (fun _ => 0)).ret = 0 ∧
    ¬ (socket_recv_messages
        { handshaken := true, base_socket := false, send_queue := [] }
        { ret := 0, record := [] } 5 (fun _ => 0)).ret < 0 := by
  refine ⟨rfl, by decide⟩

/-- Claim C7 amended: every receive while HANDSHAKEN with the wrapped socket
absent falls through to the final `return 0`: it issues no underlying call,
leaves the state unchanged, and returns `0` (an empty result), not a
failure. -/
theorem recv_handshaken_absent (priv : PseudoSSLPriv)
    (inner : InnerRecvOutcome) (delegRet : Int) (sendRet : ToBeSent → Int)
    (hh : priv.handshaken = true) (hb : priv.base_socket = false) :
    socket_recv_messages priv inner delegRet sendRet =
      { priv := priv, innerSends := [], ret := 0 } := by
  simp [socket_recv_messages, hh, hb]

/-- Claim C7 witness: the amended behaviour at a concrete state. -/
theorem recv_handshaken_absent_witness :
    socket_recv_messages
        { handshaken := true, base_socket := false, send_queue := [] }
        { ret := 1, record := SSL_SERVER_HANDSHAKE } 9 (fun _ => 0) =
      { priv := { handshaken := true, base_socket := false
                  send_queue := [] }
        innerSends := [], ret := 0 } :=
  recv_handshaken_absent
    { handshaken := true, base_socket := false, send_queue := [] }
    { ret := 1, record := SSL_SERVER_HANDSHAKE } 9 (fun _ => 0) rfl rfl

/-! ### Claim C8 -/

/-- When the remaining buffers fit in the declared length, the copy loop
copies each buffer whole: it returns their concatenation and advances the
offset by their total size. -/
theorem compactLoop_sum_le (L : Nat) (bs : List GOutputVector) (offset : Nat)
    (h : offset + (bs.map List.length).sum ≤ L) :
    compactLoop L bs offset =
      (bs.flatten, offset + (bs.map List.length).sum) := by
  induction bs generalizing offset with
  | nil => simp [compactLoop]
  | cons b rest ih =>
      simp only [List.map_cons, List.sum_cons] at h
      have hmin : min (L - offset) b.length = b.length := by omega
      have hrec := ih (offset + b.length) (by omega)
      simp [compactLoop, hmin, hrec, Nat.add_assoc]

/-- Claim C8: for a message whose buffer sizes sum to its declared length L,
the queued entry holds a single contiguous buffer of exactly L bytes equal
to the concatenation of the buffers in order, with the declared length
stored alongside. -/
theorem queued_buffer_is_concatenation (message : NiceOutputMessage)
    (h : (message.buffers.map List.length).sum = message.length) :
    (mkToBeSent message).buf = message.buffers.flatten ∧
    (mkToBeSent message).buf.length = message.length ∧
    (mkToBeSent message).length = message.length := by
  have hc := compactLoop_sum_le message.length message.buffers 0 (by omega)
  refine ⟨by simp [mkToBeSent, compact, hc], ?_, rfl⟩
  simp only [mkToBeSent, compact, hc]
  simpa using h

/-- Claim C8 witness: a three-buffer scattered message of declared length 4
is stored as its 4-byte concatenation. -/
theorem queued_buffer_is_concatenation_witness :
    (mkToBeSent
      { buffers := [[1], [2, 3], [4]], length := 4, dest := some 6 }).buf
      = [1, 2, 3, 4] ∧
    (mkToBeSent
      { buffers := [[1], [2, 3], [4]], length := 4, dest := some 6
        }).buf.length = 4 ∧
    (mkToBeSent
      { buffers := [[1], [2, 3], [4]], length := 4, dest := some 6 }).length
      = 4 := by
  have h := queued_buffer_is_concatenation
    { buffers := [[1], [2, 3], [4]], length := 4, dest := some 6 } (by decide)
  simpa using h

/-! ### Claim C9 -/

/-- Starting at an offset within the declared length, the copy loop stops at
the smaller of (offset plus the total buffer size) and the declared
length. -/
theorem compactLoop_offset_min (L : Nat) (bs : List GOutputVector)
    (offset : Nat) (h : offset ≤ L) :
    (compactLoop L bs offset).2 =
      min (offset + (bs.map List.length).sum) L := by
  induction bs generalizing offset with
  | nil =>
      simp [compactLoop]
      omega
  | cons b rest ih =>
      have hrec := ih (offset + min (L - offset) b.length) (by omega)
      simp only [compactLoop, List.map_cons, List.sum_cons]
      rw [hrec]
      omega

/-- Claim C9: the final-offset assertion of `add_to_be_sent` holds exactly
when the message buffers jointly contain at least the declared length in
bytes; in particular it is violated for every message whose buffer sizes
sum to fewer bytes than its declared length. -/
theorem addAssert_characterization (message : NiceOutputMessage) :
    (message.length ≤ (message.buffers.map List.length).sum →
      addAssertHolds message) ∧
    ((message.buffers.map List.length).sum < message.length →
      ¬ addAssertHolds message) := by
  have h := compactLoop_offset_min message.length message.buffers 0
    (Nat.zero_le _)
  unfold addAssertHolds compact
  rw [h]
  constructor <;> intro hsum <;> omega

/-- Claim C9 witness: the assertion holds for a message fully covered by its
buffers and fails for a message declaring more bytes than its buffers
hold. -/
theorem addAssert_characterization_witness :
    addAssertHolds { buffers := [[1, 2], [3]], length := 3, dest := none } ∧
    ¬ addAssertHolds { buffers := [[1]], length := 2, dest := none } :=
  ⟨(addAssert_characterization
      { buffers := [[1, 2], [3]], length := 3, dest := none }).1 (by decide),
   (addAssert_characterization
      { buffers := [[1]], length := 2, dest := none }).2 (by decide)⟩

/-! ### Claim C10 -/

/-- Claim C10: during the flush triggered by recognizing the server pattern,
the result of each send to the wrapped socket is discarded: the receive
call yields the same state, the same send calls, an empty queue, and
return value 0 whatever results those sends produce (in particular when
every one of them fails). -/
theorem flush_ignores_send_results (priv : PseudoSSLPriv)
    (inner : InnerRecvOutcome) (delegRet : Int) (f g : ToBeSent → Int)
    (hh : priv.handshaken = false) (hb : priv.base_socket = true)
    (hr : inner.ret = 1) (hrec : inner.record = SSL_SERVER_HANDSHAKE) :
    socket_recv_messages priv inner delegRet f =
      socket_recv_messages priv inner delegRet g ∧
    (socket_recv_messages priv inner delegRet f).priv.send_queue = [] ∧
    (socket_recv_messages priv inner delegRet f).ret = 0 := by
  rw [recv_match_eq priv inner delegRet f hh hb hr hrec,
    recv_match_eq priv inner delegRet g hh hb hr hrec]
  exact ⟨rfl, rfl, rfl⟩

/-- Claim C10 witness: with one queued entry, the flush outcome with every
send failing equals the outcome with every send succeeding, the queue is
drained, and the receive returns 0. -/
theorem flush_ignores_send_results_witness :
    socket_recv_messages
        { handshaken := false, base_socket := true
          send_queue := [{ buf := [8, 9], length := 2, dest := 3 }] }
        { ret := 1, record := SSL_SERVER_HANDSHAKE } 0 (fun _ => -1) =
      socket_recv_messages
        { handshaken := false, base_socket := true
          send_queue := [{ buf := [8, 9], length := 2, dest := 3 }] }
        { ret := 1, record := SSL_SERVER_HANDSHAKE } 0 (fun _ => 1) ∧
    (socket_recv_messages
        { handshaken := false, base_socket := true
          send_queue := [{ buf := [8, 9], length := 2, dest := 3 }] }
        { ret := 1, record := SSL_SERVER_HANDSHAKE } 0
        (fun _ => -1)).priv.send_queue = [] ∧
    (socket_recv_messages
        { handshaken := false, base_socket := true
          send_queue := [{ buf := [8, 9], length := 2, dest := 3 }] }
        { ret := 1, record := SSL_SERVER_HANDSHAKE } 0
        (fun _ => -1)).ret = 0 :=
  flush_ignores_send_results
    { handshaken := false, base_socket := true
      send_queue := [{ buf := [8, 9], length := 2, dest := 3 }] }
    { ret := 1, record := SSL_SERVER_HANDSHAKE } 0 (fun _ => -1) (fun _ => 1)
    rfl rfl rfl rfl

end PseudoSSL
